import Mathlib

/-!
Shallow embedding of the pattern-detection / event-replay engine of the
smart-home panel (`src/main_panel.py`, `src/data_generator.py`,
`src/csv_database.py`).

Modelling conventions:
* A `datetime` timestamp is a `Nat` counting seconds from a fixed midnight;
  `strftime "%H:%M"` becomes `fmtHM`, `timedelta(minutes=m)` becomes `m * 60`
  seconds, `timedelta(hours=24)` is `86400`, `timedelta(days=7)` is `604800`.
* Python dicts are association lists updated in place (`setAssoc` keeps the
  position of an existing key, exactly like a dict assignment); dict lookup is
  `getAssoc`.  Dict equality in Python is extensional, so theorems about the
  analyzer are stated through `lookupA`.
* The mutable attributes of `MainPanel` that the replay engine reads or writes
  are gathered in the record `PanelState`; pure GUI artefacts (labels, logs,
  buttons, the floor-plan repaint) are outside the modelled state.  The CSV
  database is modelled by the lists `rules`, `savedPatterns`, `statusWrites`
  (`rules.csv`, `patterns.csv`, `devices.csv` contents), and an outbound
  `send_message` call at the pattern-detection site is recorded in
  `notifications`.
* `load_from_csv` reads a file; the file contents are the `csvFile` field
  (`none` models `FileNotFoundError`, which `load_csv` swallows leaving
  `loaded_events` unchanged).
-/

/-- A row of the event CSV: `{timestamp, device, action, value}`
(`data_generator.py`).  The timestamp is in seconds. -/
structure Event where
  timestamp : Nat
  device : String
  action : String
  value : String
deriving DecidableEq, Repr

/-- The mutable part of a `PlanDevice` used by the replay engine
(`floor_plan.py`): its name and its boolean `state`. -/
structure Device where
  name : String
  state : Bool
deriving DecidableEq, Repr

/-- A persisted row of `rules.csv` (`csv_database.py`): id, condition, action,
enabled flag. -/
structure Rule where
  id : Nat
  condition : String
  action : String
  enabled : Bool
deriving DecidableEq, Repr

/-- Two-digit zero padding, as in `strftime`. -/
def pad2 (n : Nat) : String :=
  if n < 10 then "0" ++ toString n else toString n

/-- `timestamp.strftime("%H:%M")`: hour and minute of day, seconds discarded. -/
def fmtHM (t : Nat) : String :=
  pad2 (t / 3600 % 24) ++ ":" ++ pad2 (t / 60 % 60)

/-- List-level check that `pat` occurs at the start. -/
def leadsL [DecidableEq α] : List α → List α → Bool
  | [], _ => true
  | _ :: _, [] => false
  | a :: as, b :: bs => if a = b then leadsL as bs else false

/-- List-level check that `pat` occurs somewhere (contiguously). -/
def withinL [DecidableEq α] (pat : List α) : List α → Bool
  | [] => leadsL pat []
  | b :: bs => leadsL pat (b :: bs) || withinL pat bs

/-- Python's `pat in s` on strings: substring containment. -/
def strContains (s pat : String) : Bool :=
  withinL pat.toList s.toList

/-- Python's `s.startswith(pat)`. -/
def strStarts (s pat : String) : Bool :=
  leadsL pat.toList s.toList

/-- Dict lookup on an association list (`d.get(k)` / `d[k]`). -/
def getAssoc [DecidableEq α] : List (α × β) → α → Option β
  | [], _ => none
  | p :: rest, k => if p.1 = k then some p.2 else getAssoc rest k

/-- Dict assignment `d[k] = v`: replace the binding in place, or append. -/
def setAssoc [DecidableEq α] : List (α × β) → α → β → List (α × β)
  | [], k, v => [(k, v)]
  | p :: rest, k, v => if p.1 = k then (k, v) :: rest else p :: setAssoc rest k v

/-- Inner dict of `analyze_pattern`: time-of-day string to occurrence count. -/
abbrev TimeMap := List (String × Nat)

/-- Outer dict of `analyze_pattern`: device name to `TimeMap`. -/
abbrev DevMap := List (String × TimeMap)

/-- One iteration of the counting loop of `analyze_pattern`
(`data_generator.py` line 113):
`counts.setdefault(device, {})[time_key] = counts.get(device, {}).get(time_key, 0) + 1`. -/
def bumpEvent (m : DevMap) (e : Event) : DevMap :=
  let tm := (getAssoc m e.device).getD []
  let tk := fmtHM e.timestamp
  setAssoc m e.device (setAssoc tm tk ((getAssoc tm tk).getD 0 + 1))

/-- The `counts` dict built by the first loop of `analyze_pattern`. -/
def buildCounts (evs : List Event) : DevMap :=
  evs.foldl bumpEvent []

/-- The second loop of `analyze_pattern`: keep, per device, the times with
count `>= 3`, and keep the device only when some time survives. -/
def analyzeEntry (p : String × TimeMap) : Option (String × TimeMap) :=
  let frequent := p.2.filter fun q => decide (3 ≤ q.2)
  if frequent.isEmpty then none else some (p.1, frequent)

/-- `analyze_pattern` (`data_generator.py` lines 106-120). -/
def analyze_pattern (evs : List Event) : DevMap :=
  (buildCounts evs).filterMap analyzeEntry

/-- Extensional reading of the nested dict: count for a (device, time) key. -/
def lookupA (m : DevMap) (d tk : String) : Option Nat :=
  (getAssoc m d).bind fun tm => getAssoc tm tk

/-- Number of events of device `d` whose timestamp prints as the
time-of-day `tk` (the specification's occurrence count of the group). -/
def countKey (evs : List Event) (d tk : String) : Nat :=
  (evs.filter fun e => decide (e.device = d) && decide (fmtHM e.timestamp = tk)).length

-- ---------------------------------------------------------------------------
-- Association-list lemmas

theorem getAssoc_setAssoc [DecidableEq α] (m : List (α × β)) (k a : α) (v : β) :
    getAssoc (setAssoc m k v) a = if a = k then some v else getAssoc m a := by
  induction m with
  | nil =>
    by_cases hak : a = k
    · simp [setAssoc, getAssoc, hak]
    · have hka : ¬k = a := fun h => hak h.symm
      simp [setAssoc, getAssoc, hak, hka]
  | cons p rest ih =>
    by_cases hpk : p.1 = k
    · by_cases hak : a = k
      · simp [setAssoc, getAssoc, hpk, hak]
      · have hka : ¬k = a := fun h => hak h.symm
        have hpa : ¬p.1 = a := fun h => hak (h ▸ hpk)
        simp [setAssoc, getAssoc, hpk, hak, hka, hpa]
    · by_cases hpa : p.1 = a
      · have hak : ¬a = k := fun h => hpk (hpa.trans h)
        simp [setAssoc, getAssoc, hpk, hpa, hak]
      · simp [setAssoc, getAssoc, hpk, hpa, ih]

theorem mem_keys_setAssoc [DecidableEq α] (m : List (α × β)) (k a : α) (v : β) :
    a ∈ (setAssoc m k v).map Prod.fst ↔ a ∈ m.map Prod.fst ∨ a = k := by
  induction m with
  | nil => simp [setAssoc]
  | cons p rest ih =>
    by_cases hpk : p.1 = k
    · subst hpk; simp [setAssoc]; tauto
    · simp [setAssoc, hpk, ih]; tauto

theorem nodup_keys_setAssoc [DecidableEq α] {m : List (α × β)} (k : α) (v : β)
    (h : (m.map Prod.fst).Nodup) : ((setAssoc m k v).map Prod.fst).Nodup := by
  induction m with
  | nil => simp [setAssoc]
  | cons p rest ih =>
    simp only [List.map_cons, List.nodup_cons] at h
    by_cases hpk : p.1 = k
    · subst hpk; simpa [setAssoc, List.nodup_cons] using h
    · simp only [setAssoc, hpk, if_false, List.map_cons, List.nodup_cons]
      refine ⟨fun hmem => ?_, ih h.2⟩
      rcases (mem_keys_setAssoc rest k p.1 v).mp hmem with h1 | h2
      · exact h.1 h1
      · exact hpk h2

theorem mem_setAssoc [DecidableEq α] {m : List (α × β)} {k : α} {v : β} {p : α × β}
    (h : p ∈ setAssoc m k v) : p = (k, v) ∨ p ∈ m := by
  induction m with
  | nil => simpa [setAssoc] using h
  | cons q rest ih =>
    by_cases hqk : q.1 = k
    · simp only [setAssoc, hqk, if_true, List.mem_cons] at h
      rcases h with h | h
      · exact Or.inl h
      · exact Or.inr (List.mem_cons_of_mem _ h)
    · simp only [setAssoc, hqk, if_false, List.mem_cons] at h
      rcases h with h | h
      · exact Or.inr (h ▸ List.mem_cons_self _ _)
      · rcases ih h with h1 | h2
        · exact Or.inl h1
        · exact Or.inr (List.mem_cons_of_mem _ h2)

theorem getAssoc_mem [DecidableEq α] {m : List (α × β)} {k : α} {b : β}
    (h : getAssoc m k = some b) : (k, b) ∈ m := by
  induction m with
  | nil => simp [getAssoc] at h
  | cons p rest ih =>
    by_cases hpk : p.1 = k
    · simp only [getAssoc, hpk, if_true, Option.some.injEq] at h
      have hp : p = (k, b) := by cases p with | mk x y => simp_all
      exact hp ▸ List.mem_cons_self _ _
    · simp only [getAssoc, hpk, if_false] at h
      exact List.mem_cons_of_mem _ (ih h)

theorem getAssoc_eq_none [DecidableEq α] {m : List (α × β)} {a : α} :
    getAssoc m a = none ↔ a ∉ m.map Prod.fst := by
  induction m with
  | nil => simp [getAssoc]
  | cons p rest ih =>
    by_cases hpa : p.1 = a
    · simp [getAssoc, hpa]
    · have hap : ¬a = p.1 := fun h => hpa h.symm
      simp [getAssoc, hpa, ih, hap]

-- ---------------------------------------------------------------------------
-- Characterization of `analyze_pattern`

/-- The count stored in the nested `counts` dict for a (device, time) key
(`0` when the key is absent, as `dict.get(k, 0)` would give). -/
def cnt (m : DevMap) (d tk : String) : Nat :=
  (getAssoc ((getAssoc m d).getD []) tk).getD 0

theorem cnt_bumpEvent (m : DevMap) (e : Event) (d tk : String) :
    cnt (bumpEvent m e) d tk =
      cnt m d tk + (if d = e.device ∧ tk = fmtHM e.timestamp then 1 else 0) := by
  by_cases hd : d = e.device
  · subst hd
    by_cases htk : tk = fmtHM e.timestamp
    · subst htk
      simp [cnt, bumpEvent, getAssoc_setAssoc]
    · simp [cnt, bumpEvent, getAssoc_setAssoc, htk]
  · simp [cnt, bumpEvent, getAssoc_setAssoc, hd]

theorem cnt_foldl (evs : List Event) :
    ∀ (acc : DevMap) (d tk : String),
      cnt (List.foldl bumpEvent acc evs) d tk = cnt acc d tk + countKey evs d tk := by
  induction evs with
  | nil => intro acc d tk; simp [countKey]
  | cons e rest ih =>
    intro acc d tk
    rw [List.foldl_cons, ih, cnt_bumpEvent]
    have hck : countKey (e :: rest) d tk =
        (if d = e.device ∧ tk = fmtHM e.timestamp then 1 else 0) + countKey rest d tk := by
      by_cases h1 : d = e.device
      · subst h1
        by_cases h2 : tk = fmtHM e.timestamp
        · subst h2
          simp only [countKey, List.filter_cons, decide_True, Bool.and_self, if_true,
            List.length_cons, and_self]
          omega
        · have h2s : ¬fmtHM e.timestamp = tk := fun h => h2 h.symm
          simp [countKey, List.filter_cons, h2, h2s]
      · have h1s : ¬e.device = d := fun h => h1 h.symm
        simp [countKey, List.filter_cons, h1, h1s]
    rw [hck]
    omega

theorem cnt_buildCounts (evs : List Event) (d tk : String) :
    cnt (buildCounts evs) d tk = countKey evs d tk := by
  unfold buildCounts
  rw [cnt_foldl]
  simp [cnt, getAssoc]

/-- Well-formedness of the nested dict: outer keys and all inner keys are
free of duplicates (true of Python dicts by construction). -/
def WFmap (m : DevMap) : Prop :=
  (m.map Prod.fst).Nodup ∧ ∀ p ∈ m, (p.2.map Prod.fst).Nodup

theorem wf_bumpEvent {m : DevMap} (h : WFmap m) (e : Event) : WFmap (bumpEvent m e) := by
  obtain ⟨h1, h2⟩ := h
  constructor
  · exact nodup_keys_setAssoc _ _ h1
  · intro p hp
    rcases mem_setAssoc hp with hnew | hold
    · subst hnew
      have htm : (((getAssoc m e.device).getD []).map Prod.fst).Nodup := by
        cases hg : getAssoc m e.device with
        | none => simp
        | some tm => simpa using h2 _ (getAssoc_mem hg)
      exact nodup_keys_setAssoc _ _ htm
    · exact h2 _ hold

theorem wf_buildCounts (evs : List Event) : WFmap (buildCounts evs) := by
  unfold buildCounts
  have haux : ∀ acc : DevMap, WFmap acc → WFmap (List.foldl bumpEvent acc evs) := by
    induction evs with
    | nil => intro acc h; exact h
    | cons e rest ih => intro acc h; exact ih _ (wf_bumpEvent h e)
  exact haux [] (by constructor <;> simp)

theorem getAssoc_filter_ge (tm : TimeMap) (h : (tm.map Prod.fst).Nodup) (tk : String) :
    getAssoc (tm.filter fun q => decide (3 ≤ q.2)) tk =
      (getAssoc tm tk).bind fun c => if 3 ≤ c then some c else none := by
  induction tm with
  | nil => simp [getAssoc]
  | cons q rest ih =>
    simp only [List.map_cons, List.nodup_cons] at h
    by_cases hq : q.1 = tk
    · subst hq
      by_cases h3 : 3 ≤ q.2
      · simp [List.filter_cons, h3, getAssoc]
      · have hnone : getAssoc (rest.filter fun r => decide (3 ≤ r.2)) q.1 = none := by
          rw [getAssoc_eq_none]
          intro hmem
          apply h.1
          obtain ⟨r, hr, hr2⟩ := List.mem_map.mp hmem
          exact List.mem_map.mpr ⟨r, List.mem_of_mem_filter hr, hr2⟩
        simp [List.filter_cons, h3, getAssoc, hnone]
    · by_cases h3 : 3 ≤ q.2
      · simp [List.filter_cons, h3, getAssoc, hq, ih h.2]
      · simp [List.filter_cons, h3, getAssoc, hq, ih h.2]

theorem getAssoc_filterMap_none {m : DevMap} {d : String}
    (h : getAssoc m d = none) : getAssoc (m.filterMap analyzeEntry) d = none := by
  induction m with
  | nil => simp [getAssoc]
  | cons p rest ih =>
    by_cases hp : p.1 = d
    · simp [getAssoc, hp] at h
    · simp only [getAssoc, hp, if_false] at h
      by_cases he : (p.2.filter fun q => decide (3 ≤ q.2)).isEmpty
      · simpa [List.filterMap_cons, analyzeEntry, he] using ih h
      · simpa [List.filterMap_cons, analyzeEntry, he, getAssoc, hp] using ih h

theorem getAssoc_analyzeFrom (m : DevMap) (h : (m.map Prod.fst).Nodup) (d : String) :
    getAssoc (m.filterMap analyzeEntry) d =
      (getAssoc m d).bind fun tm =>
        if (tm.filter fun q => decide (3 ≤ q.2)).isEmpty then none
        else some (tm.filter fun q => decide (3 ≤ q.2)) := by
  induction m with
  | nil => simp [getAssoc]
  | cons p rest ih =>
    simp only [List.map_cons, List.nodup_cons] at h
    by_cases hp : p.1 = d
    · subst hp
      have hnone : getAssoc rest p.1 = none := getAssoc_eq_none.mpr h.1
      by_cases he : (p.2.filter fun q => decide (3 ≤ q.2)).isEmpty
      · rw [List.filterMap_cons]
        have hae : analyzeEntry p = none := by simp [analyzeEntry, he]
        rw [hae, getAssoc_filterMap_none hnone]
        simp [getAssoc, he]
      · rw [List.filterMap_cons]
        have hae : analyzeEntry p = some (p.1, p.2.filter fun q => decide (3 ≤ q.2)) := by
          simp [analyzeEntry, he]
        rw [hae]
        simp [getAssoc, he]
    · rw [List.filterMap_cons]
      cases hae : analyzeEntry p with
      | none => simpa [getAssoc, hp] using ih h.2
      | some q =>
        have hq1 : q.1 = p.1 := by
          by_cases he : (p.2.filter fun r => decide (3 ≤ r.2)).isEmpty <;>
            simp [analyzeEntry, he] at hae
          rw [← hae]
        have hqd : ¬q.1 = d := by rw [hq1]; exact hp
        simpa [getAssoc, hqd, hp] using ih h.2

/-- The analyzer, read extensionally: a (device, time) key maps to `c` exactly
when `c` is the key's occurrence count in the event list and `c >= 3`. -/
theorem lookupA_analyze (evs : List Event) (d tk : String) :
    lookupA (analyze_pattern evs) d tk =
      if 3 ≤ countKey evs d tk then some (countKey evs d tk) else none := by
  have hwf := wf_buildCounts evs
  have hcnt := cnt_buildCounts evs d tk
  unfold lookupA analyze_pattern
  rw [getAssoc_analyzeFrom _ hwf.1]
  cases hg : getAssoc (buildCounts evs) d with
  | none =>
    have hcnt0 : countKey evs d tk = 0 := by
      unfold cnt at hcnt
      rw [hg] at hcnt
      simpa [getAssoc] using hcnt.symm
    simp [hcnt0]
  | some tm =>
    have htmwf : (tm.map Prod.fst).Nodup := hwf.2 _ (getAssoc_mem hg)
    unfold cnt at hcnt
    rw [hg] at hcnt
    simp only [Option.getD_some] at hcnt
    have hfg := getAssoc_filter_ge tm htmwf tk
    have hfin : ((getAssoc tm tk).bind fun c => if 3 ≤ c then some c else none) =
        if 3 ≤ countKey evs d tk then some (countKey evs d tk) else none := by
      cases hgt : getAssoc tm tk with
      | none =>
        rw [hgt] at hcnt
        simp only [Option.getD_none] at hcnt
        simp [← hcnt]
      | some c =>
        rw [hgt] at hcnt
        simp only [Option.getD_some] at hcnt
        subst hcnt
        simp
    simp only [Option.some_bind]
    by_cases he : (tm.filter fun q => decide (3 ≤ q.2)).isEmpty = true
    · have hnil : tm.filter (fun q => decide (3 ≤ q.2)) = [] := by simpa using he
      rw [← hfin, ← hfg, hnil]
      simp [he, getAssoc]
    · rw [← hfin, ← hfg]
      simp [he]

theorem countKey_perm {l l2 : List Event} (h : l.Perm l2) (d tk : String) :
    countKey l d tk = countKey l2 d tk :=
  (h.filter _).length_eq

-- ---------------------------------------------------------------------------
-- The replay engine (`MainPanel`, service tab)

/-- The attributes of `MainPanel` read or written by the service/replay code
(`main_panel.py`), plus the modelled collaborators:
`rules`, `savedPatterns`, `statusWrites` are the contents of `rules.csv`,
`patterns.csv` and `devices.csv` (`SmartHomeCSV`); `notifications` records the
`send_message("패턴 감지: ...")` calls of `apply_event`; `csvFile` is the
content of `data/generated.csv` read by `load_csv` (`none` = file missing);
`speed`, `durationIs24h`, `chatNotify` model the `speed_box`, `duration_box`
and `chat_notify` GUI selections; `timerActive` models whether
`service_timer` is running. -/
structure PanelState where
  loadedEvents : List Event
  csvFile : Option (List Event)
  devices : List Device
  serviceRunning : Bool
  stepMode : Bool
  pausedForChatbot : Bool
  pendingEvent : Option Event
  simTime : Option Nat
  simEndTime : Option Nat
  serviceIndex : Nat
  detectedPatterns : Option DevMap
  sentPatterns : List (String × String)
  chatNotify : Bool
  speed : Nat
  durationIs24h : Bool
  rules : List Rule
  savedPatterns : List (Nat × String × String)
  statusWrites : List (String × String)
  notifications : List (String × String × String)
  timerActive : Bool
deriving DecidableEq, Repr

/-- The state right after `_init_tab_service` ran: nothing loaded into the
service yet, `detected_patterns`/`sent_patterns` not created
(`detectedPatterns = none` models the `getattr(self, "detected_patterns",
None)` default). -/
def initPanel (loaded : List Event) (csv : Option (List Event)) (devs : List Device)
    (rules0 : List Rule) (cn : Bool) (sp : Nat) (d24 : Bool) : PanelState :=
  { loadedEvents := loaded
    csvFile := csv
    devices := devs
    serviceRunning := false
    stepMode := false
    pausedForChatbot := false
    pendingEvent := none
    simTime := none
    simEndTime := none
    serviceIndex := 0
    detectedPatterns := none
    sentPatterns := []
    chatNotify := cn
    speed := sp
    durationIs24h := d24
    rules := rules0
    savedPatterns := []
    statusWrites := []
    notifications := []
    timerActive := false }

/-- The condition of `apply_event` (`main_panel.py` lines 732-738) deciding
whether to notify the chatbot: `detected_patterns` exists and is truthy,
the checkbox is on, the device has a significant entry at this time key
(`.get(time_key)` truthy = present and nonzero), and the key was not sent
before in this session. -/
def notifyCond (s : PanelState) (d tk : String) : Bool :=
  match s.detectedPatterns with
  | none => false
  | some dp =>
    !dp.isEmpty && s.chatNotify &&
      (getAssoc dp d).isSome &&
      (match getAssoc ((getAssoc dp d).getD []) tk with
       | some c => decide (c ≠ 0)
       | none => false) &&
      !(decide ((d, tk) ∈ s.sentPatterns))

/-- `MainPanel.apply_event` (`main_panel.py` lines 714-746): resolve targets
(the `"모든조명"` wildcard selects every device whose name contains `"조명"`,
otherwise exact name match), set their `state` to `value == "ON"`, persist a
full device-status snapshot and a pattern-log row, then possibly notify the
chatbot, record the key as sent, remember the pending event, pause, and stop
the timer. -/
def apply_event (s : PanelState) (e : Event) : PanelState :=
  let devs :=
    if e.device = "모든조명" then
      s.devices.map fun d => if strContains d.name "조명" then { d with state := e.value = "ON" } else d
    else
      s.devices.map fun d => if d.name = e.device then { d with state := e.value = "ON" } else d
  let s1 := { s with
    devices := devs
    statusWrites := s.statusWrites ++ devs.map fun d => (d.name, if d.state then "ON" else "OFF")
    savedPatterns := s.savedPatterns ++ [(e.timestamp, e.device, e.value)] }
  let tk := fmtHM e.timestamp
  if notifyCond s1 e.device tk then
    { s1 with
      notifications := s1.notifications ++ [(e.device, tk, e.value)]
      sentPatterns := s1.sentPatterns ++ [(e.device, tk)]
      pendingEvent := some e
      pausedForChatbot := true
      timerActive := false }
  else s1

/-- The `while` loop of `advance_service` (`main_panel.py` lines 701-707):
apply every loaded event at or before the (already advanced) virtual time
`t`, bumping `service_index`.  `fuel` bounds the iteration count; it is
called with `loadedEvents.length`, which the loop can never exceed. -/
def applyLoopAux : Nat → Nat → PanelState → PanelState
  | 0, _, s => s
  | fuel + 1, t, s =>
    match s.loadedEvents[s.serviceIndex]? with
    | none => s
    | some e =>
      if e.timestamp ≤ t then
        applyLoopAux fuel t { apply_event s e with serviceIndex := s.serviceIndex + 1 }
      else s

/-- Stable insertion into a timestamp-sorted list (equal timestamps keep the
original relative order, like Python's stable `list.sort`). -/
def insertByTs (e : Event) : List Event → List Event
  | [] => [e]
  | x :: xs => if x.timestamp ≤ e.timestamp then x :: insertByTs e xs else e :: x :: xs

/-- A stable sort by timestamp, modelling `loaded_events.sort(key=...)`. -/
def sortByTs (l : List Event) : List Event :=
  l.foldl (fun acc e => insertByTs e acc) []

/-- `MainPanel.load_csv` (`main_panel.py` lines 573-579): read the CSV into
`loaded_events` and sort it by timestamp; a missing file
(`FileNotFoundError`) leaves `loaded_events` unchanged. -/
def load_csv (s : PanelState) : PanelState :=
  match s.csvFile with
  | none => s
  | some evs => { s with loadedEvents := sortByTs evs }

/-- `MainPanel.toggle_service` (`main_panel.py` lines 641-670): a running,
unpaused service is stopped; otherwise (re)start: load events if none are
loaded, silently return if still none, recompute `detected_patterns`, clear
`sent_patterns`, set the virtual clock to the first event's timestamp, the
end time from the duration selection, reset the cursor and start the timer. -/
def toggle_service (s : PanelState) : PanelState :=
  if s.serviceRunning && !s.pausedForChatbot then
    { s with
      timerActive := false
      serviceRunning := false
      stepMode := false
      simEndTime := none }
  else
    let s1 := if s.loadedEvents.isEmpty then load_csv s else s
    match s1.loadedEvents with
    | [] => s1
    | e0 :: _ =>
      { s1 with
        detectedPatterns := some (analyze_pattern s1.loadedEvents)
        sentPatterns := []
        serviceRunning := true
        stepMode := false
        pausedForChatbot := false
        simTime := some e0.timestamp
        simEndTime := some (e0.timestamp + if s1.durationIs24h then 86400 else 604800)
        serviceIndex := 0
        timerActive := true }

/-- `MainPanel.advance_service` (`main_panel.py` lines 695-712): one tick.
Return immediately unless running with a clock and not paused; advance the
virtual time by `speed` minutes, apply all due events, and on reaching the
end time stop and restart the whole service (looping playback). -/
def advance_service (s : PanelState) : PanelState :=
  if !s.serviceRunning then s
  else
    match s.simTime with
    | none => s
    | some t0 =>
      if s.pausedForChatbot then s
      else
        let t := t0 + s.speed * 60
        let s1 := { s with simTime := some t }
        let s2 := applyLoopAux s1.loadedEvents.length t s1
        match s2.simEndTime with
        | none => s2
        | some te => if te ≤ t then toggle_service (toggle_service s2) else s2

/-- `MainPanel.step_service` (`main_panel.py` lines 672-693): if no service
is running, initialise one exactly like `toggle_service` but in step mode
and without starting the timer (silently returning when no events can be
loaded); then, unless paused for the chatbot, run one `advance_service`. -/
def step_service (s : PanelState) : PanelState :=
  if s.serviceRunning then
    if s.pausedForChatbot then s else advance_service s
  else
    let s1 := if s.loadedEvents.isEmpty then load_csv s else s
    match s1.loadedEvents with
    | [] => s1
    | e0 :: _ =>
      let s2 := { s1 with
        detectedPatterns := some (analyze_pattern s1.loadedEvents)
        sentPatterns := []
        serviceRunning := true
        stepMode := true
        pausedForChatbot := false
        simTime := some e0.timestamp
        simEndTime := some (e0.timestamp + if s1.durationIs24h then 86400 else 604800)
        serviceIndex := 0 }
      if s2.pausedForChatbot then s2 else advance_service s2

-- ---------------------------------------------------------------------------
-- Chat-message handling and rule persistence

/-- ASCII whitespace, as stripped by Python's `str.strip()` on the
messages this program exchanges. -/
def isWS (c : Char) : Bool := c = ' ' || c = '\t' || c = '\n' || c = '\r'

/-- Drop leading whitespace characters. -/
def dropWS : List Char → List Char
  | [] => []
  | c :: rest => if isWS c then dropWS rest else c :: rest

/-- Python's `s.strip()` (kernel-computable model of `String.trim`). -/
def strTrim (s : String) : String :=
  ⟨(dropWS (dropWS s.toList.reverse).reverse)⟩

/-- Python's `s.lower()` on the ASCII commands this program uses. -/
def strLower (s : String) : String :=
  ⟨s.toList.map Char.toLower⟩

/-- Split a character list at every occurrence of `sep`. -/
def splitOnL (sep : Char) : List Char → List (List Char)
  | [] => [[]]
  | c :: rest =>
    let r := splitOnL sep rest
    if c = sep then [] :: r
    else
      match r with
      | [] => [[c]]
      | h :: t => (c :: h) :: t

/-- Python's `s.split(":")` (the `maxsplit=2` of the source does not change
the second field, which is all the code reads). -/
def strSplitColon (s : String) : List String :=
  (splitOnL ':' s.toList).map fun l => ⟨l⟩

/-- `SmartHomeCSV._get_next_rule_id` (`csv_database.py` lines 148-162):
one plus the maximum existing rule id. -/
def nextRuleId (rules : List Rule) : Nat :=
  (rules.foldl (fun m r => max m r.id) 0) + 1

/-- `SmartHomeCSV.save_rule` (`csv_database.py` lines 113-126): append one
row with a fresh id and `enabled = 1`. -/
def save_rule (rules : List Rule) (condition action : String) : List Rule :=
  rules ++ [{ id := nextRuleId rules, condition := condition, action := action, enabled := true }]

/-- `MainPanel._execute_chatbot_device_command` (`main_panel.py` lines
484-515): the recognised commands mutate device states only (the
`light_...` branch has no effect in the source). -/
def execute_chatbot_device_command (s : PanelState) (command : String) : PanelState :=
  if command = "all_lights_on" then
    { s with devices := s.devices.map fun d => if strContains d.name "조명" then { d with state := true } else d }
  else if command = "all_lights_off" then
    { s with devices := s.devices.map fun d => if strContains d.name "조명" then { d with state := false } else d }
  else if strStarts command "light_" then s
  else if strStarts command "aircon_" then
    if command = "aircon_on" then
      { s with devices := s.devices.map fun d => if strContains d.name "에어컨" then { d with state := true } else d }
    else if command = "aircon_off" then
      { s with devices := s.devices.map fun d => if strContains d.name "에어컨" then { d with state := false } else d }
    else s
  else s

/-- `MainPanel._process_device_control_command` (`main_panel.py` lines
473-482): split on `":"` (a `maxsplit` of 2 does not change the second
part) and execute the stripped command when a colon is present. -/
def process_device_control_command (s : PanelState) (message : String) : PanelState :=
  match strSplitColon message with
  | _ :: p1 :: _ => execute_chatbot_device_command s (strTrim p1)
  | _ => s

/-- `MainPanel._handle_chatbot_command` (`main_panel.py` lines 441-455):
dispatch on the lower-cased, stripped message.  A status request only sends
the current device states back (no modelled-state change); everything that
is neither a status request nor a control command falls through to
`_handle_general_chat_message`, which does nothing. -/
def handle_chatbot_command (s : PanelState) (message : String) : PanelState :=
  let ml := strTrim (strLower message)
  if strContains ml "request_status" then s
  else if strContains ml "control:" then process_device_control_command s message
  else s

/-- `MainPanel._handle_chat_message` (`main_panel.py` lines 522-541): run the
command dispatch, then, when the service is paused for the chatbot, persist
a rule if the stripped message is `"CREATE_RULE"` and a pending event
exists, clear the pending event, unpause, and restart the timer when the
service is running in continuous (non-step) mode. -/
def handle_chat_message (s : PanelState) (message : String) : PanelState :=
  let s1 := handle_chatbot_command s message
  if s1.pausedForChatbot then
    let s2 :=
      if strTrim message = "CREATE_RULE" then
        match s1.pendingEvent with
        | some e =>
          { s1 with rules := save_rule s1.rules ("time == " ++ fmtHM e.timestamp) (e.device ++ " " ++ e.value) }
        | none => s1
      else s1
    let s3 := { s2 with pendingEvent := none, pausedForChatbot := false }
    if s3.serviceRunning && !s3.stepMode then { s3 with timerActive := true } else s3
  else s1

-- ---------------------------------------------------------------------------
-- Reachability of panel states through the service entry points

/-- One externally triggered step of the panel: a timer tick, the step
button, the play/pause button, or an incoming chatbot message. -/
inductive PStep : PanelState → PanelState → Prop
  | tick (s : PanelState) : PStep s (advance_service s)
  | stepBtn (s : PanelState) : PStep s (step_service s)
  | playBtn (s : PanelState) : PStep s (toggle_service s)
  | chat (s : PanelState) (m : String) : PStep s (handle_chat_message s m)

/-- Reflexive-transitive closure of `PStep`. -/
def Reach : PanelState → PanelState → Prop :=
  Relation.ReflTransGen PStep

/-- Folding `apply_event` over a list of events (an arbitrary sequence of
applied events within a session). -/
def applyEvents (s : PanelState) (es : List Event) : PanelState :=
  es.foldl apply_event s

/-- Notification count recorded for one (device, time) key. -/
def countNotif (s : PanelState) (d tk : String) : Nat :=
  (s.notifications.filter fun n => decide (n.1 = d) && decide (n.2.1 = tk)).length

-- ---------------------------------------------------------------------------
-- Concrete fixtures (device registry of `floor_plan.py`, sample events)

/-- The ten devices of the fixed registry (`floor_plan.py` lines 196-206),
all initially off. -/
def devices0 : List Device :=
  [⟨"거실 조명", false⟩, ⟨"주방 조명", false⟩, ⟨"침실1 조명", false⟩,
   ⟨"침실2 조명", false⟩, ⟨"침실3 조명", false⟩, ⟨"현관 조명", false⟩,
   ⟨"에어컨", false⟩, ⟨"가스밸브", false⟩, ⟨"보일러", false⟩, ⟨"CCTV", false⟩]

/-- Sample events: the living-room light and the boiler each act at 07:00
(:00 and :30 seconds past) on three consecutive days, so both
("거실조명","07:00") and ("보일러","07:00") have occurrence count 3. -/
def evL0 : Event := ⟨25200, "거실조명", "power", "ON"⟩
def evB0 : Event := ⟨25230, "보일러", "power", "ON"⟩
def evL1 : Event := ⟨111600, "거실조명", "power", "ON"⟩
def evB1 : Event := ⟨111630, "보일러", "power", "ON"⟩
def evL2 : Event := ⟨198000, "거실조명", "power", "ON"⟩
def evB2 : Event := ⟨198030, "보일러", "power", "ON"⟩

/-- The six sample events in timestamp order. -/
def evsB : List Event := [evL0, evB0, evL1, evB1, evL2, evB2]

/-- The panel initialised on the sample events (1x speed, 24h duration,
chatbot notifications on, no CSV file, empty rule store). -/
def panelB : PanelState := initPanel evsB none devices0 [] true 1 true

-- ---------------------------------------------------------------------------
-- Helper lemmas about the engine's operations

/-- `notifyCond` only reads `detectedPatterns`, `chatNotify` and
`sentPatterns`, which the device/persistence updates of `apply_event` leave
untouched. -/
theorem notifyCond_update (s : PanelState) (X : List Device)
    (Y : List (String × String)) (Z : List (Nat × String × String)) (d tk : String) :
    notifyCond { s with devices := X, statusWrites := Y, savedPatterns := Z } d tk =
      notifyCond s d tk := rfl

/-- Unpacking a successful notification condition. -/
theorem notifyCond_true {s : PanelState} {d tk : String} (h : notifyCond s d tk = true) :
    ∃ dp c, s.detectedPatterns = some dp ∧ lookupA dp d tk = some c ∧ c ≠ 0 ∧
      (d, tk) ∉ s.sentPatterns := by
  unfold notifyCond at h
  cases hd : s.detectedPatterns with
  | none => rw [hd] at h; simp at h
  | some dp =>
    rw [hd] at h
    simp only [Bool.and_eq_true, Bool.not_eq_true', decide_eq_false_iff_not] at h
    obtain ⟨⟨⟨⟨h1, h2⟩, h3⟩, h4⟩, h5⟩ := h
    cases hga : getAssoc dp d with
    | none => rw [hga] at h3; simp at h3
    | some tm =>
      cases hgt : getAssoc tm tk with
      | none => rw [hga] at h4; simp only [Option.getD_some] at h4; rw [hgt] at h4; simp at h4
      | some c =>
        refine ⟨dp, c, rfl, ?_, ?_, h5⟩
        · simp [lookupA, hga, hgt]
        · rw [hga] at h4
          simp only [Option.getD_some] at h4
          rw [hgt] at h4
          simpa using h4

/-- `_execute_chatbot_device_command` changes only the device states. -/
theorem execute_cmd_only_devices (s : PanelState) (c : String) :
    execute_chatbot_device_command s c =
      { s with devices := (execute_chatbot_device_command s c).devices } := by
  unfold execute_chatbot_device_command
  split_ifs <;> rfl

/-- `_process_device_control_command` changes only the device states. -/
theorem process_cmd_only_devices (s : PanelState) (m : String) :
    process_device_control_command s m =
      { s with devices := (process_device_control_command s m).devices } := by
  unfold process_device_control_command
  split
  · exact execute_cmd_only_devices _ _
  · rfl

/-- `_handle_chatbot_command` changes only the device states. -/
theorem chatbot_only_devices (s : PanelState) (m : String) :
    handle_chatbot_command s m =
      { s with devices := (handle_chatbot_command s m).devices } := by
  simp only [handle_chatbot_command]
  split_ifs
  · rfl
  · exact process_cmd_only_devices _ _
  · rfl

/-- The devices produced by `apply_event`: wildcard or exact-name targets. -/
theorem apply_event_devices (s : PanelState) (e : Event) :
    (apply_event s e).devices =
      if e.device = "모든조명" then
        s.devices.map fun d =>
          if strContains d.name "조명" then { d with state := e.value = "ON" } else d
      else
        s.devices.map fun d =>
          if d.name = e.device then { d with state := e.value = "ON" } else d := by
  simp only [apply_event]
  split <;> first
  | rfl
  | (split <;> rfl)

/-- Relating a list to its image under a pointwise-described map. -/
theorem forall₂_map_self {f : Device → Device} {r : Device → Device → Prop}
    (hf : ∀ d, r d (f d)) : ∀ l : List Device, List.Forall₂ r l (l.map f)
  | [] => List.Forall₂.nil
  | d :: rest => List.Forall₂.cons (hf d) (forall₂_map_self hf rest)

/-- One `apply_event` never produces a second notification for a key already
in `sent_patterns`, and keys already sent stay sent. -/
theorem countNotif_apply_event (s : PanelState) (e : Event) (d tk : String)
    (h : (d, tk) ∈ s.sentPatterns) :
    countNotif (apply_event s e) d tk = countNotif s d tk ∧
      (d, tk) ∈ (apply_event s e).sentPatterns := by
  simp only [apply_event, notifyCond_update]
  by_cases hnc : notifyCond s e.device (fmtHM e.timestamp) = true
  · rw [if_pos hnc]
    obtain ⟨dp, c, hdp, hla, hc0, hns⟩ := notifyCond_true hnc
    have hne : (decide (e.device = d) && decide (fmtHM e.timestamp = tk)) = false := by
      by_cases h1 : e.device = d
      · by_cases h2 : fmtHM e.timestamp = tk
        · subst h1; subst h2; exact absurd h hns
        · simp [h2]
      · simp [h1]
    constructor
    · simp only [countNotif, List.filter_append]
      rw [List.filter_cons]
      simp [hne]
    · simp [h]
  · rw [if_neg hnc]
    exact ⟨rfl, h⟩

-- ---------------------------------------------------------------------------
-- A session invariant: every notification ever sent names a significant key

/-- Invariant over all reachable panel states when the panel was initialised
with event set `evs0` and no CSV fallback file: the loaded events never
change, `detected_patterns` is unset or the analysis of `evs0`, and every
notification sent so far names a key of occurrence count at least 3. -/
def InvP (evs0 : List Event) (s : PanelState) : Prop :=
  s.loadedEvents = evs0 ∧ s.csvFile = none ∧
    (s.detectedPatterns = none ∨ s.detectedPatterns = some (analyze_pattern evs0)) ∧
    ∀ d tk v, (d, tk, v) ∈ s.notifications → 3 ≤ countKey evs0 d tk

theorem invP_apply {evs0 : List Event} {s : PanelState} (h : InvP evs0 s) (e : Event) :
    InvP evs0 (apply_event s e) := by
  obtain ⟨h1, h2, h3, h4⟩ := h
  simp only [apply_event, notifyCond_update]
  by_cases hnc : notifyCond s e.device (fmtHM e.timestamp) = true
  · rw [if_pos hnc]
    obtain ⟨dp, c, hdp, hla, hc0, hns⟩ := notifyCond_true hnc
    have hdpe : dp = analyze_pattern evs0 := by
      rcases h3 with h3 | h3
      · rw [h3] at hdp; exact absurd hdp (by simp)
      · rw [h3] at hdp
        injection hdp with hh
        exact hh.symm
    refine ⟨h1, h2, h3, ?_⟩
    intro d tk v hm
    simp only [List.mem_append, List.mem_singleton] at hm
    rcases hm with hm | hm
    · exact h4 _ _ _ hm
    · obtain ⟨hd, htk, hv⟩ : d = e.device ∧ tk = fmtHM e.timestamp ∧ v = e.value := by
        injection hm with hm1 hm2
        injection hm2 with hm2 hm3
        exact ⟨hm1, hm2, hm3⟩
      subst hd; subst htk
      rw [hdpe, lookupA_analyze] at hla
      by_cases h5 : 3 ≤ countKey evs0 e.device (fmtHM e.timestamp)
      · exact h5
      · rw [if_neg h5] at hla; exact absurd hla (by simp)
  · rw [if_neg hnc]
    exact ⟨h1, h2, h3, h4⟩

theorem invP_loop {evs0 : List Event} :
    ∀ (fuel t : Nat) {s : PanelState}, InvP evs0 s → InvP evs0 (applyLoopAux fuel t s) := by
  intro fuel
  induction fuel with
  | zero => intro t s h; exact h
  | succ n ih =>
    intro t s h
    unfold applyLoopAux
    split
    · exact h
    · split
      · exact ih t (invP_apply h _)
      · exact h

theorem invP_toggle {evs0 : List Event} {s : PanelState} (h : InvP evs0 s) :
    InvP evs0 (toggle_service s) := by
  obtain ⟨h1, h2, h3, h4⟩ := h
  have hload : load_csv s = s := by unfold load_csv; rw [h2]
  have hs1 : (if s.loadedEvents.isEmpty then load_csv s else s) = s := by
    split
    · exact hload
    · rfl
  simp only [toggle_service]
  split
  · exact ⟨h1, h2, h3, h4⟩
  · rw [hs1]
    split
    · exact ⟨h1, h2, h3, h4⟩
    · exact ⟨h1, h2, Or.inr (by rw [h1]), h4⟩

theorem invP_advance {evs0 : List Event} {s : PanelState} (h : InvP evs0 s) :
    InvP evs0 (advance_service s) := by
  simp only [advance_service]
  split
  · exact h
  · split
    · exact h
    · rename_i t0 heq
      split
      · exact h
      · have hmid : InvP evs0 { s with simTime := some (t0 + s.speed * 60) } :=
          ⟨h.1, h.2.1, h.2.2.1, h.2.2.2⟩
        have hloop := invP_loop
          (({ s with simTime := some (t0 + s.speed * 60) } : PanelState).loadedEvents.length)
          (t0 + s.speed * 60) hmid
        split
        · exact hloop
        · split
          · exact invP_toggle (invP_toggle hloop)
          · exact hloop

theorem invP_stepService {evs0 : List Event} {s : PanelState} (h : InvP evs0 s) :
    InvP evs0 (step_service s) := by
  obtain ⟨h1, h2, h3, h4⟩ := h
  have hload : load_csv s = s := by unfold load_csv; rw [h2]
  have hs1 : (if s.loadedEvents.isEmpty then load_csv s else s) = s := by
    split
    · exact hload
    · rfl
  simp only [step_service]
  split
  · split
    · exact ⟨h1, h2, h3, h4⟩
    · exact invP_advance ⟨h1, h2, h3, h4⟩
  · rw [hs1]
    split
    · exact ⟨h1, h2, h3, h4⟩
    · split
      · exact ⟨h1, h2, Or.inr (by rw [h1]), h4⟩
      · exact invP_advance ⟨h1, h2, Or.inr (by rw [h1]), h4⟩

theorem invP_chat {evs0 : List Event} {s : PanelState} (h : InvP evs0 s) (m : String) :
    InvP evs0 (handle_chat_message s m) := by
  obtain ⟨h1, h2, h3, h4⟩ := h
  simp only [handle_chat_message]
  rw [chatbot_only_devices s m]
  repeat' split
  all_goals exact ⟨h1, h2, h3, h4⟩

theorem invP_pstep {evs0 : List Event} {s s2 : PanelState}
    (hstep : PStep s s2) (h : InvP evs0 s) : InvP evs0 s2 := by
  cases hstep with
  | tick => exact invP_advance h
  | stepBtn => exact invP_stepService h
  | playBtn => exact invP_toggle h
  | chat m => exact invP_chat h m

theorem invP_reach {evs0 : List Event} {s s2 : PanelState}
    (hr : Reach s s2) (h : InvP evs0 s) : InvP evs0 s2 := by
  induction hr with
  | refl => exact h
  | tail hab hbc ih => exact invP_pstep hbc ih

-- ---------------------------------------------------------------------------
-- Further fixtures used by the claim theorems

/-- The started panel after one tick: the first due event (`evL0`) raised a
notification and paused the service, yet the tick went on and also applied
`evB0`, raising a second notification. -/
def panelPaused : PanelState := advance_service (toggle_service panelB)

/-- The panel with an empty event set and no CSV file to load from. -/
def panelEmpty : PanelState := initPanel [] none devices0 [] true 1 true

/-- A freshly started session, put into the awaiting-chatbot pause with no
key sent yet (as the engine is between `notify` and `on_response`). -/
def panelPausedFresh : PanelState := { toggle_service panelB with pausedForChatbot := true }

-- ---------------------------------------------------------------------------
-- C1

/-- C1 counterexample: in the reachable state after starting on `evsB` and
driving one tick, the first applied event (`evL0`) raised a notification and
set the pause, but the tick did not stop: the cursor advanced to 2 and a
second notification went out in the same tick. -/
theorem tick_continues_past_notification_cex :
    panelPaused.notifications = [("거실조명", "07:00", "ON"), ("보일러", "07:00", "ON")] ∧
    panelPaused.serviceIndex = 2 ∧
    panelPaused.pausedForChatbot = true := by decide

/-- C1 (amended): the pause is enforced only between ticks — while
`paused_for_chatbot` is set, a timer tick (`advance_service`) leaves the
whole state (cursor and virtual time included) unchanged, and so does the
step button while the service is running; within the tick that raised the
notification, the remaining due events are still processed. -/
theorem paused_replay_frozen (s : PanelState) (hp : s.pausedForChatbot = true) :
    advance_service s = s ∧ (s.serviceRunning = true → step_service s = s) := by
  constructor
  · cases hr : s.serviceRunning with
    | false => simp [advance_service, hr]
    | true =>
      cases ht : s.simTime with
      | none => simp [advance_service, hr, ht]
      | some t0 => simp [advance_service, hr, ht, hp]
  · intro hr
    simp [step_service, hr, hp]

/-- C1 witness: the frozen-while-paused property at the concrete paused
state reached above. -/
theorem paused_replay_frozen_witness :
    advance_service panelPaused = panelPaused ∧ step_service panelPaused = panelPaused :=
  ⟨(paused_replay_frozen panelPaused (by decide)).1,
   (paused_replay_frozen panelPaused (by decide)).2 (by decide)⟩

-- ---------------------------------------------------------------------------
-- C2

/-- C2: `analyze_pattern` returns an empty mapping on empty input; the time
key discards seconds (truncation to the minute); and a (device, time) group
is in the result exactly when its occurrence count is at least 3, mapped to
that count. -/
theorem analyze_pattern_groups_spec :
    analyze_pattern [] = [] ∧
    (∀ t : Nat, fmtHM t = fmtHM (60 * (t / 60))) ∧
    ∀ (evs : List Event) (d tk : String),
      lookupA (analyze_pattern evs) d tk =
        if 3 ≤ countKey evs d tk then some (countKey evs d tk) else none := by
  refine ⟨rfl, ?_, lookupA_analyze⟩
  intro t
  have h1 : 60 * (t / 60) / 60 = t / 60 := Nat.mul_div_cancel_left _ (by norm_num)
  have h2 : 60 * (t / 60) / 3600 = t / 3600 := by
    have h36 : (3600 : Nat) = 60 * 60 := rfl
    rw [h36, ← Nat.div_div_eq_div_mul, ← Nat.div_div_eq_div_mul, h1]
  unfold fmtHM
  rw [h1, h2]

-- ---------------------------------------------------------------------------
-- C5

/-- C5 counterexample: starting (by play or by step) with an empty event set
and nothing to load raises no error of any kind — the call is a silent
no-op, leaving the panel state unchanged and the session not running. -/
theorem empty_start_silent_cex :
    toggle_service panelEmpty = panelEmpty ∧
    step_service panelEmpty = panelEmpty ∧
    panelEmpty.serviceRunning = false := by decide

/-- C5 (amended): with an empty loaded event set, no CSV file to fall back
to, and no running service, both service entry points return with the state
unchanged — no `InvalidSession` (or any) error exists and the session is
silently left unstarted. -/
theorem empty_start_silent_noop (s : PanelState)
    (h1 : s.loadedEvents = []) (h2 : s.csvFile = none) (h3 : s.serviceRunning = false) :
    toggle_service s = s ∧ step_service s = s := by
  have hload : load_csv s = s := by unfold load_csv; rw [h2]
  constructor
  · simp [toggle_service, h3, h1, hload]
  · simp [step_service, h3, h1, hload]

/-- C5 witness: the silent no-op at the concrete empty panel. -/
theorem empty_start_silent_noop_witness :
    toggle_service panelEmpty = panelEmpty ∧ step_service panelEmpty = panelEmpty :=
  empty_start_silent_noop panelEmpty (by decide) (by decide) (by decide)

-- ---------------------------------------------------------------------------
-- C9

/-- C9: the analyzer's output mapping is invariant under permutation of the
input events (and, being a pure function of its input, carries no hidden
state across calls). -/
theorem analyze_pattern_order_independent (l l2 : List Event) (h : l.Perm l2)
    (d tk : String) :
    lookupA (analyze_pattern l) d tk = lookupA (analyze_pattern l2) d tk := by
  rw [lookupA_analyze, lookupA_analyze, countKey_perm h]

/-- C9 witness: permutation invariance on a concrete reordering of the
sample events. -/
theorem analyze_pattern_order_independent_witness :
    lookupA (analyze_pattern [evL0, evB0, evL1, evB1, evL2, evB2]) "거실조명" "07:00" =
      lookupA (analyze_pattern [evB2, evL0, evB0, evL1, evB1, evL2]) "거실조명" "07:00" :=
  analyze_pattern_order_independent _ _ (by decide) _ _

-- ---------------------------------------------------------------------------
-- C10

/-- C10: a chatbot message received while no negotiation is pending
(`paused_for_chatbot` unset) persists no rule and leaves the replay session
state — cursor, virtual time, running flag and pending event — unchanged. -/
theorem chat_message_idle_noop (s : PanelState) (m : String)
    (hp : s.pausedForChatbot = false) :
    (handle_chat_message s m).rules = s.rules ∧
    (handle_chat_message s m).serviceIndex = s.serviceIndex ∧
    (handle_chat_message s m).simTime = s.simTime ∧
    (handle_chat_message s m).serviceRunning = s.serviceRunning ∧
    (handle_chat_message s m).pendingEvent = s.pendingEvent ∧
    (handle_chat_message s m).pausedForChatbot = false := by
  simp only [handle_chat_message]
  rw [chatbot_only_devices s m]
  simp [hp]

/-- C10 witness: a `CREATE_RULE` message on the idle initial panel changes
none of the session fields. -/
theorem chat_message_idle_noop_witness :
    (handle_chat_message panelB "CREATE_RULE").rules = panelB.rules ∧
    (handle_chat_message panelB "CREATE_RULE").pendingEvent = panelB.pendingEvent :=
  ⟨(chat_message_idle_noop panelB "CREATE_RULE" (by decide)).1,
   (chat_message_idle_noop panelB "CREATE_RULE" (by decide)).2.2.2.2.1⟩

-- ---------------------------------------------------------------------------
-- C3

/-- C3: within a session, once a (device, time) key is recorded in the
notified set (`sent_patterns`), no sequence of applied events ever sends a
second notification for it. -/
theorem no_second_notification_for_notified_key (s : PanelState) (es : List Event)
    (d tk : String) (h : (d, tk) ∈ s.sentPatterns) :
    countNotif (applyEvents s es) d tk = countNotif s d tk := by
  induction es generalizing s with
  | nil => rfl
  | cons e rest ih =>
    simp only [applyEvents, List.foldl_cons]
    have hstep := countNotif_apply_event s e d tk h
    have hrec := ih (apply_event s e) hstep.2
    simp only [applyEvents] at hrec
    rw [hrec, hstep.1]

/-- C3 witness: replaying further events over the paused state (whose
notified set already holds both sample keys) adds no notification for the
living-room key. -/
theorem no_second_notification_witness :
    countNotif (applyEvents panelPaused [evL1, evB1, evL2]) "거실조명" "07:00" =
      countNotif panelPaused "거실조명" "07:00" :=
  no_second_notification_for_notified_key panelPaused [evL1, evB1, evL2] "거실조명" "07:00"
    (by decide)

-- ---------------------------------------------------------------------------
-- C4

/-- C4 counterexample: in the reachable paused state, the message
`" CREATE_RULE"` (leading blank) is a response other than `"CREATE_RULE"`,
yet it persists one rule, because the code compares the stripped text. -/
theorem untrimmed_create_rule_cex :
    ¬(" CREATE_RULE" = "CREATE_RULE") ∧
    (handle_chat_message panelPaused " CREATE_RULE").rules =
      [{ id := 1, condition := "time == 07:00", action := "보일러 ON", enabled := true }] := by
  decide

/-- C4 (amended): while paused with pending event `e`, a response whose
whitespace-stripped text is `"CREATE_RULE"` persists exactly one rule with
condition `time == HH:MM` of the pending event and action `device value`; a
response whose stripped text is anything else persists nothing; both return
the protocol to idle (pause lifted, pending cleared) and restart the timer
when a continuous-mode service is running. -/
theorem on_response_behavior (s : PanelState) (m : String) (e : Event)
    (hp : s.pausedForChatbot = true) (hpe : s.pendingEvent = some e) :
    ((strTrim m = "CREATE_RULE" →
      (handle_chat_message s m).rules =
        save_rule s.rules ("time == " ++ fmtHM e.timestamp) (e.device ++ " " ++ e.value)) ∧
     (¬strTrim m = "CREATE_RULE" → (handle_chat_message s m).rules = s.rules)) ∧
    (handle_chat_message s m).pausedForChatbot = false ∧
    (handle_chat_message s m).pendingEvent = none ∧
    (handle_chat_message s m).timerActive =
      (if s.serviceRunning && !s.stepMode then true else s.timerActive) := by
  simp only [handle_chat_message]
  rw [chatbot_only_devices s m]
  by_cases hm : strTrim m = "CREATE_RULE" <;>
    by_cases hr2 : s.serviceRunning = true <;>
      by_cases hs2 : s.stepMode = true <;>
        simp [hp, hpe, hm, hr2, hs2]

/-- C4 witness: the exact message `"CREATE_RULE"` on the reachable paused
state persists the rule built from the pending event and lifts the pause. -/
theorem on_response_behavior_witness :
    (handle_chat_message panelPaused "CREATE_RULE").rules =
      save_rule panelPaused.rules ("time == " ++ fmtHM evB0.timestamp)
        (evB0.device ++ " " ++ evB0.value) ∧
    (handle_chat_message panelPaused "CREATE_RULE").pausedForChatbot = false :=
  ⟨((on_response_behavior panelPaused "CREATE_RULE" evB0 (by decide) (by decide)).1).1
      (by decide),
   (on_response_behavior panelPaused "CREATE_RULE" evB0 (by decide) (by decide)).2.1⟩

-- ---------------------------------------------------------------------------
-- C6

/-- C6 counterexample: in the reachable state after one tick over `evsB`,
the first notification (for the living-room light) had already put the
protocol into the awaiting state, yet a second notify went through without
any error — two messages were sent and the pending event now is the boiler
event, no longer the first trigger. -/
theorem second_notify_not_rejected_cex :
    panelPaused.pausedForChatbot = true ∧
    panelPaused.notifications.length = 2 ∧
    panelPaused.notifications.head? = some ("거실조명", "07:00", "ON") ∧
    panelPaused.pendingEvent = some evB0 ∧
    ¬(evB0.device = "거실조명") := by decide

/-- C6 (amended): a second notify while already awaiting a response is not
rejected — no `NegotiationBusy` error exists; whenever an applied event
satisfies the notification condition while the pause flag is set, the
notification is sent and the pending triggering event is replaced by the
new event (the pause itself stays on). -/
theorem second_notify_replaces_pending (s : PanelState) (e : Event)
    (hp : s.pausedForChatbot = true)
    (hc : notifyCond s e.device (fmtHM e.timestamp) = true) :
    (apply_event s e).pendingEvent = some e ∧
    (apply_event s e).notifications =
      s.notifications ++ [(e.device, fmtHM e.timestamp, e.value)] ∧
    (apply_event s e).pausedForChatbot = true := by
  simp only [apply_event, notifyCond_update]
  rw [if_pos hc]
  exact ⟨rfl, rfl, rfl⟩

/-- C6 witness: applying a notifying event to a paused fresh session sends
the notification and installs it as the pending event. -/
theorem second_notify_replaces_pending_witness :
    (apply_event panelPausedFresh evL0).pendingEvent = some evL0 ∧
    (apply_event panelPausedFresh evL0).pausedForChatbot = true :=
  ⟨(second_notify_replaces_pending panelPausedFresh evL0 (by decide) (by decide)).1,
   (second_notify_replaces_pending panelPausedFresh evL0 (by decide) (by decide)).2.2⟩

-- ---------------------------------------------------------------------------
-- C7

/-- C7: starting the panel on event set `evs0` (with no CSV fallback), in
every reachable state no notification was ever sent for a (device, time)
pair whose occurrence count in `evs0` is below 3. -/
theorem below_threshold_never_notified (evs0 : List Event) (devs : List Device)
    (rules0 : List Rule) (cn : Bool) (sp : Nat) (d24 : Bool) (s : PanelState)
    (hr : Reach (initPanel evs0 none devs rules0 cn sp d24) s)
    (d tk : String) (hlt : countKey evs0 d tk < 3) (v : String) :
    (d, tk, v) ∉ s.notifications := by
  intro hm
  have hinv0 : InvP evs0 (initPanel evs0 none devs rules0 cn sp d24) := by
    refine ⟨rfl, rfl, Or.inl rfl, ?_⟩
    intro d2 tk2 v2 hm2
    simp [initPanel] at hm2
  have h3 := (invP_reach hr hinv0).2.2.2 d tk v hm
  omega

/-- C7 witness: along the concrete play-then-tick trace over the sample
events, the under-threshold pair ("보일러", "08:00") was never notified. -/
theorem below_threshold_never_notified_witness :
    ("보일러", "08:00", "ON") ∉ panelPaused.notifications := by
  have hreach : Reach panelB panelPaused :=
    Relation.ReflTransGen.tail
      (Relation.ReflTransGen.tail Relation.ReflTransGen.refl (PStep.playBtn panelB))
      (PStep.tick (toggle_service panelB))
  exact below_threshold_never_notified evsB devices0 [] true 1 true panelPaused hreach
    "보일러" "08:00" (by decide) "ON"

-- ---------------------------------------------------------------------------
-- C8

/-- C8: applying an event with the wildcard device name `"모든조명"` sets
`state = (value == "ON")` on every device whose name contains the lighting
keyword `"조명"` and leaves every other device unchanged; applying an event
whose device name is not the wildcard and matches no registered device
leaves the device list unchanged (and raises no error — the operation is
total). -/
theorem apply_event_device_resolution (s : PanelState) (e : Event) :
    (e.device = "모든조명" →
      List.Forall₂ (fun d d2 => d2.name = d.name ∧
          d2.state = (if strContains d.name "조명" then decide (e.value = "ON") else d.state))
        s.devices (apply_event s e).devices) ∧
    (¬e.device = "모든조명" → (∀ d ∈ s.devices, ¬d.name = e.device) →
      (apply_event s e).devices = s.devices) := by
  constructor
  · intro hw
    rw [apply_event_devices, if_pos hw]
    refine forall₂_map_self ?_ s.devices
    intro d
    by_cases hl : strContains d.name "조명" = true
    · simp [hl]
    · simp [hl]
  · intro hw hnone
    rw [apply_event_devices, if_neg hw]
    have hmap : ∀ l : List Device, (∀ d ∈ l, ¬d.name = e.device) →
        (l.map fun d =>
          if d.name = e.device then { d with state := decide (e.value = "ON") } else d) = l := by
      intro l
      induction l with
      | nil => intro _; rfl
      | cons a rest ih =>
        intro hl
        have ha := hl a (List.mem_cons_self _ _)
        simp only [List.map_cons, if_neg ha]
        rw [ih fun d hd => hl d (List.mem_cons_of_mem _ hd)]
    exact hmap s.devices hnone

/-- The wildcard all-lights-off event of Scenario C. -/
def evAll : Event := ⟨25200, "모든조명", "power", "OFF"⟩

/-- An event naming no registered device. -/
def evNone : Event := ⟨25200, "세탁기", "power", "ON"⟩

/-- C8 witness: the wildcard event rewrites exactly the lighting devices of
the registry, and an unknown device name changes nothing. -/
theorem apply_event_device_resolution_witness :
    List.Forall₂ (fun d d2 => d2.name = d.name ∧
        d2.state = (if strContains d.name "조명" then decide (evAll.value = "ON") else d.state))
      panelB.devices (apply_event panelB evAll).devices ∧
    (apply_event panelB evNone).devices = panelB.devices :=
  ⟨(apply_event_device_resolution panelB evAll).1 (by decide),
   (apply_event_device_resolution panelB evNone).2 (by decide) (by decide)⟩
